import Mathlib

/-!
Shallow embedding of the Location_Tracker service (src/API/server.js and the
db.js schema module) and proofs about the claims of its specification.

Modelling conventions:
* JSON numbers are rationals (`ℚ`); JavaScript `Number(string)` conversion is
  modelled by `jsNumber` for the decimal numerals these routes receive, with
  `JsNum.nan` for everything that does not parse.
* Database timestamps are abstract clock ticks (`ℕ`).  `NOW()` is evaluated at
  the start of each SQL statement and `new Date()` on the application server,
  so each time reading is a separate clock read; the elapsed time before each
  read is an input (`d1 d2 d3`) to the handler.
* The `DECIMAL(10,6)` latitude/longitude columns round the stored value to six
  fractional digits, half away from zero (`round6`), as MySQL does on insert.
* The history table is kept newest-first: since the clock is monotone along a
  run, this list order coincides with `ORDER BY recorded_at DESC` (ties are
  returned newest-insertion-first).
* Failures of the two statements or of the commit inside the transaction of
  `POST /api/location` are injected through `DbFailure`; the `catch` branch of
  the handler rolls the transaction back and answers 500.
-/

namespace LocationTracker

/-- The `ENUM('on','off')` of both tables / `Joi.string().valid("on","off")`. -/
inductive GpsStatus
  | on
  | off
deriving DecidableEq, Repr

/-- A JSON value as delivered by the body parser to the handler: a number, a
string, or anything else (boolean, null, object, array). -/
inductive JVal
  | num (q : ℚ)
  | str (s : String)
  | other
deriving DecidableEq, Repr

/-- A `POST /api/location` request body: the five properties known to
`locationSchema` (absent = `none`) plus the names of any further properties. -/
structure Body where
  employee_id : Option JVal
  latitude : Option JVal
  longitude : Option JVal
  gps_status : Option JVal
  timestamp : Option JVal
  extraKeys : List String
deriving DecidableEq, Repr

/-- All characters are decimal digits. -/
def allDigits (l : List Char) : Bool := l.all Char.isDigit

/-- Seconds part of an ISO time: empty, `Z`, or `:SS` optionally ending in `Z`. -/
def isoSecondsPart : List Char → Bool
  | [] => true
  | ['Z'] => true
  | ':' :: s1 :: s2 :: rest => allDigits [s1, s2] && (rest.isEmpty || rest = ['Z'])
  | _ => false

/-- Time part of an ISO date: empty or `THH:MM` followed by `isoSecondsPart`. -/
def isoTimePart : List Char → Bool
  | [] => true
  | 'T' :: h1 :: h2 :: ':' :: m1 :: m2 :: rest => allDigits [h1, h2, m1, m2] && isoSecondsPart rest
  | _ => false

/-- Simplified model of the `Joi.string().isoDate()` check of `locationSchema`:
`YYYY-MM-DD` with an optional `THH:MM[:SS][Z]` part.  Joi's regular expression
admits further forms; no claim depends on the exact boundary of the accepted
set, only on the handler ignoring a timestamp that validated. -/
def isIsoDate (s : String) : Bool :=
  match s.toList with
  | y1 :: y2 :: y3 :: y4 :: '-' :: m1 :: m2 :: '-' :: e1 :: e2 :: rest =>
    allDigits [y1, y2, y3, y4, m1, m2, e1, e2] && isoTimePart rest
  | _ => false

/-- The validated report, i.e. the `value` produced by
`locationSchema.validate(req.body)`. -/
structure Report where
  employee_id : ℤ
  latitude : ℚ
  longitude : ℚ
  gps_status : GpsStatus
  timestamp : Option String
deriving DecidableEq, Repr

/-- `Joi.number().integer().min(1).required()` for `employee_id`. -/
def checkEmployeeId : Option JVal → Except String ℤ
  | none => .error "employee_id is required"
  | some (.num q) =>
    if q.den = 1 then
      if 1 ≤ q.num then .ok q.num
      else .error "employee_id must be greater than or equal to 1"
    else .error "employee_id must be an integer"
  | some _ => .error "employee_id must be a number"

/-- `Joi.number().min(lo).max(hi).required()` for the coordinate fields. -/
def checkRange (nm : String) (lo hi : ℚ) : Option JVal → Except String ℚ
  | none => .error (nm ++ " is required")
  | some (.num q) =>
    if q < lo then .error (nm ++ " must be greater than or equal to the minimum")
    else if hi < q then .error (nm ++ " must be less than or equal to the maximum")
    else .ok q
  | some _ => .error (nm ++ " must be a number")

/-- `Joi.string().valid("on","off").required()` for `gps_status`. -/
def checkGps : Option JVal → Except String GpsStatus
  | none => .error "gps_status is required"
  | some (.str "on") => .ok .on
  | some (.str "off") => .ok .off
  | some _ => .error "gps_status must be one of on, off"

/-- `Joi.string().isoDate().optional()` for `timestamp`. -/
def checkTimestamp : Option JVal → Except String (Option String)
  | none => .ok none
  | some (.str s) => if isIsoDate s then .ok (some s) else .error "timestamp must be in iso format"
  | some _ => .error "timestamp must be a string"

/-- `locationSchema.validate(req.body)`: the five field checks, plus Joi's
default rejection of unknown keys (`allowUnknown` is off, so any extra
property fails validation instead of being stripped). -/
def validate (b : Body) : Except String Report :=
  match checkEmployeeId b.employee_id with
  | .error e => .error e
  | .ok eid =>
    match checkRange "latitude" (-90) 90 b.latitude with
    | .error e => .error e
    | .ok la =>
      match checkRange "longitude" (-180) 180 b.longitude with
      | .error e => .error e
      | .ok lo =>
        match checkGps b.gps_status with
        | .error e => .error e
        | .ok g =>
          match checkTimestamp b.timestamp with
          | .error e => .error e
          | .ok ts =>
            if b.extraKeys.isEmpty then .ok ⟨eid, la, lo, g, ts⟩
            else .error ((b.extraKeys.headD "") ++ " is not allowed")

/-- One row of `employee_live_location` (the payload columns; the surrogate
`id` column never reaches any reader and is omitted). -/
structure CurrentRow where
  employee_id : ℤ
  latitude : ℚ
  longitude : ℚ
  gps_status : GpsStatus
  last_update : ℕ
deriving DecidableEq, Repr

/-- One row of `employee_location_history`. -/
structure HistoryRow where
  employee_id : ℤ
  latitude : ℚ
  longitude : ℚ
  gps_status : GpsStatus
  recorded_at : ℕ
deriving DecidableEq, Repr

/-- The database state plus the server clock. -/
structure StoreState where
  live : List CurrentRow
  history : List HistoryRow
  clock : ℕ
deriving DecidableEq, Repr

/-- Round a rational half away from zero at the sixth fractional digit, as
MySQL rounds a value stored into a `DECIMAL(10,6)` column.  The value is
⌊|q|·10⁶ + 1/2⌋ carrying the sign of `q`; the floor is encoded over the
reduced fraction of `q` — for `x ≥ 0`, ⌊x·10⁶ + 1/2⌋ =
⌊(2·x.num·10⁶ + x.den) / (2·x.den)⌋ — so that it evaluates by kernel
reduction (the argument of `Rat.floor` is nonnegative in both branches). -/
def roundAway6 (q : ℚ) : ℤ :=
  if q.num < 0 then
    -Rat.floor (mkRat (2 * (-q.num) * 1000000 + (q.den : ℤ)) (2 * q.den))
  else
    Rat.floor (mkRat (2 * q.num * 1000000 + (q.den : ℤ)) (2 * q.den))

/-- Storage into a `DECIMAL(10,6)` column: round to six fractional digits. -/
def round6 (q : ℚ) : ℚ := mkRat (roundAway6 q) 1000000

/-- The first statement of the transaction:
`INSERT INTO employee_live_location ... ON DUPLICATE KEY UPDATE
latitude=VALUES(latitude), longitude=VALUES(longitude),
gps_status=VALUES(gps_status), last_update=NOW()`.  The duplicate key is the
`uniq_emp UNIQUE (employee_id)` constraint; on conflict every payload column
is replaced. -/
def upsertLive (l : List CurrentRow) (eid : ℤ) (la lo : ℚ) (g : GpsStatus) (t : ℕ) :
    List CurrentRow :=
  if l.any (fun r => r.employee_id == eid) then
    l.map (fun r => if r.employee_id == eid then ⟨eid, la, lo, g, t⟩ else r)
  else
    l ++ [⟨eid, la, lo, g, t⟩]

/-- Fault injection for the transaction of `POST /api/location`: which of the
two statements, or the commit, throws. -/
inductive DbFailure
  | noFault
  | atUpsert
  | atHistory
  | atCommit
deriving DecidableEq, Repr

/-- The object built after commit and handed both to `broadcast` and to
`res.json` as `data`. -/
structure Payload where
  employee_id : ℤ
  latitude : ℚ
  longitude : ℚ
  gps_status : GpsStatus
  last_update : ℕ
deriving DecidableEq, Repr

/-- Everything observable about one `POST /api/location` request: the store
afterwards, the HTTP response, and the LiveEvent handed to `broadcast`
(`none` when `broadcast` was not called). -/
structure PostResult where
  store : StoreState
  status : ℕ
  success : Bool
  errorMsg : Option String
  data : Option Payload
  broadcastEvent : Option Payload
deriving DecidableEq, Repr

/-- The `POST /api/location` handler.  `d1 d2 d3` are the times elapsing
before the three clock reads: `NOW()` of the upsert statement, `NOW()` of the
history insert, and `new Date()` after commit.  On a validation error the
handler answers 400 before touching the pool; on an injected failure the
`catch` branch rolls the transaction back (both tables revert) and answers
500 without broadcasting; otherwise it commits, builds the payload from the
validated request values and a fresh application clock read, broadcasts it
and echoes it. -/
def postLocation (st : StoreState) (b : Body) (f : DbFailure) (d1 d2 d3 : ℕ) : PostResult :=
  match validate b with
  | .error msg => ⟨st, 400, false, some msg, none, none⟩
  | .ok r =>
    match f with
    | .atUpsert =>
      ⟨⟨st.live, st.history, st.clock + d1⟩, 500, false, some "Database error", none, none⟩
    | .atHistory =>
      ⟨⟨st.live, st.history, st.clock + d1 + d2⟩, 500, false, some "Database error", none, none⟩
    | .atCommit =>
      ⟨⟨st.live, st.history, st.clock + d1 + d2⟩, 500, false, some "Database error", none, none⟩
    | .noFault =>
      let t1 := st.clock + d1
      let t2 := t1 + d2
      let t3 := t2 + d3
      let p : Payload := ⟨r.employee_id, r.latitude, r.longitude, r.gps_status, t3⟩
      { store := ⟨upsertLive st.live r.employee_id (round6 r.latitude) (round6 r.longitude)
                    r.gps_status t1,
                  ⟨r.employee_id, round6 r.latitude, round6 r.longitude, r.gps_status, t2⟩
                    :: st.history,
                  t3⟩
        status := 200, success := true, errorMsg := none, data := some p,
        broadcastEvent := some p }

/-- `GET /api/locations`: `SELECT ... FROM v_employee_latest`, and the view
`v_employee_latest` is a pass-through over `employee_live_location`. -/
def getLocations (st : StoreState) : List CurrentRow := st.live

/-- A JavaScript number: NaN or a rational. -/
inductive JsNum
  | nan
  | num (q : ℚ)
deriving DecidableEq, Repr

/-- Digits of a numeral read as a natural number. -/
def digitsToNat (l : List Char) : ℕ :=
  l.foldl (fun a c => a * 10 + (c.toNat - 48)) 0

/-- Parse an optionally signed decimal numeral with an optional fraction part,
building `sign·(intDigits·10^f + fracDigits) / 10^f` as one `mkRat`.  Models
the JavaScript `Number(string)` conversion for the decimal numerals these
routes receive; remaining numeral forms (hexadecimal, exponents, `Infinity`)
are not exercised by any claim and map to `none` (NaN). -/
def parseDecimal (cs : List Char) : Option ℚ :=
  let signAndRest : ℤ × List Char :=
    match cs with
    | '-' :: r => (-1, r)
    | '+' :: r => (1, r)
    | r => (1, r)
  let sign := signAndRest.1
  let rest := signAndRest.2
  let intPart := rest.takeWhile Char.isDigit
  let afterInt := rest.dropWhile Char.isDigit
  match afterInt with
  | [] =>
    if intPart.isEmpty then none
    else some (mkRat (sign * (digitsToNat intPart : ℤ)) 1)
  | '.' :: fr =>
    let fracPart := fr.takeWhile Char.isDigit
    let afterFrac := fr.dropWhile Char.isDigit
    if afterFrac.isEmpty && !(intPart.isEmpty && fracPart.isEmpty) then
      some (mkRat
        (sign * ((digitsToNat intPart : ℤ) * 10 ^ fracPart.length + (digitsToNat fracPart : ℤ)))
        (10 ^ fracPart.length))
    else none
  | _ => none

/-- Whitespace for the purposes of `Number(string)` trimming. -/
def isJsSpace (c : Char) : Bool :=
  c == ' ' || c == '\t' || c == '\n' || c == '\r'

/-- Strip leading and trailing whitespace. -/
def trimChars (cs : List Char) : List Char :=
  ((cs.dropWhile isJsSpace).reverse.dropWhile isJsSpace).reverse

/-- `Number(s)` for a string: trimmed empty string is 0, decimal numerals are
parsed, everything else is NaN. -/
def jsNumber (s : String) : JsNum :=
  let t := trimChars s.toList
  if t.isEmpty then .num 0
  else
    match parseDecimal t with
    | some q => .num q
    | none => .nan

/-- `Math.min(a, b)`: NaN absorbs. -/
def jsMin (a : JsNum) (b : ℚ) : JsNum :=
  match a with
  | .nan => .nan
  | .num q => .num (min q b)

/-- `Math.min(Number(req.query.limit || 500), 5000)`: the query parameter is a
string, so `|| 500` substitutes 500 exactly when the parameter is absent or is
the empty string (the only falsy string). -/
def effectiveLimit (limitParam : Option String) : JsNum :=
  match limitParam with
  | none => jsMin (.num 500) 5000
  | some s => if s = "" then jsMin (.num 500) 5000 else jsMin (jsNumber s) 5000

/-- The history `SELECT ... WHERE employee_id = ? ORDER BY recorded_at DESC
LIMIT ?`.  The history list is kept newest-first, which realizes the ORDER BY
under the monotone clock.  MySQL only accepts a nonnegative integer `LIMIT`;
a negative, fractional or NaN placeholder value makes the statement fail. -/
def sqlSelectHistory (hist : List HistoryRow) (eid : ℚ) (lim : JsNum) :
    Except String (List HistoryRow) :=
  match lim with
  | .nan => .error "ER_PARSE_ERROR"
  | .num l =>
    if l.den = 1 ∧ 0 ≤ l.num then
      .ok ((hist.filter (fun hr => (hr.employee_id : ℚ) == eid)).take l.num.toNat)
    else .error "ER_PARSE_ERROR"

/-- Everything observable about one `GET /api/locations/:employee_id/history`
request. -/
structure HistoryResult where
  status : ℕ
  success : Bool
  errorMsg : Option String
  data : Option (List HistoryRow)
  storeQueried : Bool
deriving DecidableEq, Repr

/-- The history handler: `employee_id = Number(req.params.employee_id)`; the
guard `if (!employee_id)` rejects exactly the falsy numbers NaN and 0 with a
400 before the pool is touched; any other number is put into the query.  A
failing query is caught and answered with 500 `Database error`. -/
def getHistoryHandler (st : StoreState) (idParam : String) (limitParam : Option String) :
    HistoryResult :=
  match jsNumber idParam with
  | .nan => ⟨400, false, some "Invalid employee_id", none, false⟩
  | .num e =>
    if e = 0 then ⟨400, false, some "Invalid employee_id", none, false⟩
    else
      match sqlSelectHistory st.history e (effectiveLimit limitParam) with
      | .ok rows => ⟨200, true, none, some rows, true⟩
      | .error _ => ⟨500, false, some "Database error", none, true⟩

/-- One WebSocket client: an identity and whether `send` currently succeeds
(`false` models a broken connection whose `send` throws). -/
structure Observer where
  oid : ℕ
  sendOk : Bool
deriving DecidableEq, Repr

/-- The `wss.clients` set of the WebSocketServer. -/
structure Hub where
  clients : List Observer
deriving DecidableEq, Repr

/-- One `c.send(msg)` attempt. -/
def sendTo (o : Observer) : Except String Unit :=
  if o.sendOk then .ok () else .error "send failed"

/-- The `broadcast` helper: serializes the payload once, then for every client
attempts a send inside `try { c.send(msg) } catch {}` — a failure is swallowed
on the spot, the loop continues, and the client set is not modified.  Returns
the hub afterwards and the ids that received the message, in client order. -/
def broadcast (h : Hub) (_p : Payload) : Hub × List ℕ :=
  (h,
    (h.clients.filter (fun c =>
      match sendTo c with
      | .ok _ => true
      | .error _ => false)).map (fun c => c.oid))

/-- A state-changing request (reads leave the store unchanged, so reachability
of store states is determined by the POST requests alone). -/
inductive Op
  | post (b : Body) (f : DbFailure) (d1 d2 d3 : ℕ)

/-- Apply one request to the store. -/
def applyOp (st : StoreState) : Op → StoreState
  | .post b f d1 d2 d3 => (postLocation st b f d1 d2 d3).store

/-- The store right after the idempotent `ensureSchema`: both tables empty. -/
def initState : StoreState := ⟨[], [], 0⟩

/-- The store reached by a sequence of requests from the initial state. -/
def runOps (ops : List Op) : StoreState := ops.foldl applyOp initState

/-- The `uniq_emp UNIQUE (employee_id)` invariant: pairwise distinct worker
ids in `employee_live_location`. -/
def UniqueLive (st : StoreState) : Prop :=
  (st.live.map (fun r => r.employee_id)).Nodup

/-! ### Inversion of the validation -/

theorem checkEmployeeId_ok {v : Option JVal} {eid : ℤ} (h : checkEmployeeId v = .ok eid) :
    v = some (.num (eid : ℚ)) ∧ 1 ≤ eid := by
  match v with
  | none => simp [checkEmployeeId] at h
  | some (.str s) => simp [checkEmployeeId] at h
  | some .other => simp [checkEmployeeId] at h
  | some (.num q) =>
    simp only [checkEmployeeId] at h
    split at h
    next hden =>
      split at h
      next hge =>
        cases h
        have hq : ((q.num : ℚ)) = q := (Rat.den_eq_one_iff q).mp hden
        exact ⟨by rw [hq], hge⟩
      next => cases h
    next => cases h

theorem checkRange_ok {nm : String} {lo hi : ℚ} {v : Option JVal} {q : ℚ}
    (h : checkRange nm lo hi v = .ok q) :
    v = some (.num q) ∧ lo ≤ q ∧ q ≤ hi := by
  match v with
  | none => simp [checkRange] at h
  | some (.str s) => simp [checkRange] at h
  | some .other => simp [checkRange] at h
  | some (.num q') =>
    simp only [checkRange] at h
    split at h
    next => cases h
    next hlo =>
      split at h
      next => cases h
      next hhi =>
        cases h
        exact ⟨rfl, le_of_not_lt hlo, le_of_not_lt hhi⟩

theorem checkGps_ok {v : Option JVal} {g : GpsStatus} (h : checkGps v = .ok g) :
    (v = some (.str "on") ∧ g = .on) ∨ (v = some (.str "off") ∧ g = .off) := by
  match v with
  | none => simp [checkGps] at h
  | some (.num q) => simp [checkGps] at h
  | some .other => simp [checkGps] at h
  | some (.str s) =>
    by_cases hon : s = "on"
    · subst hon
      refine .inl ⟨rfl, ?_⟩
      simp only [checkGps] at h
      cases h
      rfl
    · by_cases hoff : s = "off"
      · subst hoff
        refine .inr ⟨rfl, ?_⟩
        simp only [checkGps] at h
        cases h
        rfl
      · exfalso
        simp [checkGps, hon, hoff] at h

/-- Everything a successful validation pins down about the body and report. -/
theorem validate_ok {b : Body} {r : Report} (h : validate b = .ok r) :
    b.employee_id = some (.num (r.employee_id : ℚ)) ∧ 1 ≤ r.employee_id ∧
    b.latitude = some (.num r.latitude) ∧ -90 ≤ r.latitude ∧ r.latitude ≤ 90 ∧
    b.longitude = some (.num r.longitude) ∧ -180 ≤ r.longitude ∧ r.longitude ≤ 180 ∧
    ((b.gps_status = some (.str "on") ∧ r.gps_status = .on) ∨
      (b.gps_status = some (.str "off") ∧ r.gps_status = .off)) ∧
    b.extraKeys = [] := by
  unfold validate at h
  split at h
  next => cases h
  next eid heid =>
    split at h
    next => cases h
    next la hla =>
      split at h
      next => cases h
      next lo hlo =>
        split at h
        next => cases h
        next g hg =>
          split at h
          next => cases h
          next ts hts =>
            split at h
            next hx =>
              cases h
              obtain ⟨hv1, hv2⟩ := checkEmployeeId_ok heid
              obtain ⟨hv3, hv4, hv5⟩ := checkRange_ok hla
              obtain ⟨hv6, hv7, hv8⟩ := checkRange_ok hlo
              exact ⟨hv1, hv2, hv3, hv4, hv5, hv6, hv7, hv8, checkGps_ok hg,
                List.isEmpty_iff.mp hx⟩
            next => cases h

/-! ### Shape of the POST handler's result -/

theorem postLocation_error {st : StoreState} {b : Body} {f : DbFailure} {d1 d2 d3 : ℕ}
    {m : String} (hv : validate b = .error m) :
    postLocation st b f d1 d2 d3 = ⟨st, 400, false, some m, none, none⟩ := by
  unfold postLocation
  rw [hv]

theorem postLocation_ok {st : StoreState} {b : Body} {r : Report} {d1 d2 d3 : ℕ}
    (hv : validate b = .ok r) :
    postLocation st b .noFault d1 d2 d3 =
      { store := ⟨upsertLive st.live r.employee_id (round6 r.latitude) (round6 r.longitude)
                    r.gps_status (st.clock + d1),
                  ⟨r.employee_id, round6 r.latitude, round6 r.longitude, r.gps_status,
                    st.clock + d1 + d2⟩ :: st.history,
                  st.clock + d1 + d2 + d3⟩
        status := 200, success := true, errorMsg := none
        data := some ⟨r.employee_id, r.latitude, r.longitude, r.gps_status,
          st.clock + d1 + d2 + d3⟩
        broadcastEvent := some ⟨r.employee_id, r.latitude, r.longitude, r.gps_status,
          st.clock + d1 + d2 + d3⟩ } := by
  unfold postLocation
  rw [hv]

theorem postLocation_fault {st : StoreState} {b : Body} {r : Report} {f : DbFailure}
    {d1 d2 d3 : ℕ} (hv : validate b = .ok r) (hf : f ≠ .noFault) :
    (postLocation st b f d1 d2 d3).store.live = st.live ∧
    (postLocation st b f d1 d2 d3).store.history = st.history ∧
    (postLocation st b f d1 d2 d3).status = 500 ∧
    (postLocation st b f d1 d2 d3).success = false ∧
    (postLocation st b f d1 d2 d3).errorMsg = some "Database error" ∧
    (postLocation st b f d1 d2 d3).data = none ∧
    (postLocation st b f d1 d2 d3).broadcastEvent = none := by
  unfold postLocation
  rw [hv]
  cases f with
  | noFault => exact absurd rfl hf
  | atUpsert => exact ⟨rfl, rfl, rfl, rfl, rfl, rfl, rfl⟩
  | atHistory => exact ⟨rfl, rfl, rfl, rfl, rfl, rfl, rfl⟩
  | atCommit => exact ⟨rfl, rfl, rfl, rfl, rfl, rfl, rfl⟩

/-! ### The upsert against a unique key -/

theorem upsertLive_map_id (l : List CurrentRow) (eid : ℤ) (la lo : ℚ) (g : GpsStatus) (t : ℕ) :
    ((l.map (fun r => if r.employee_id == eid then (⟨eid, la, lo, g, t⟩ : CurrentRow) else r)).map
        (fun r => r.employee_id)) =
      l.map (fun r => r.employee_id) := by
  induction l with
  | nil => rfl
  | cons hd tl ih =>
    simp only [List.map_cons, ih]
    by_cases hc : hd.employee_id = eid
    · simp [hc]
    · simp [hc]

theorem nodup_upsertLive (l : List CurrentRow) (eid : ℤ) (la lo : ℚ) (g : GpsStatus) (t : ℕ)
    (h : (l.map (fun r => r.employee_id)).Nodup) :
    ((upsertLive l eid la lo g t).map (fun r => r.employee_id)).Nodup := by
  unfold upsertLive
  split
  next => rw [upsertLive_map_id]; exact h
  next hany =>
    rw [List.map_append]
    refine List.Nodup.append h (List.nodup_singleton _) ?_
    intro x hx hy
    have hxe : x = eid := by simpa using hy
    rw [hxe] at hx
    obtain ⟨row, hrow, hrow2⟩ := List.mem_map.mp hx
    have : l.any (fun r => r.employee_id == eid) = true :=
      List.any_eq_true.mpr ⟨row, hrow, beq_iff_eq.mpr hrow2⟩
    simp [this] at hany

theorem filter_upsertLive (l : List CurrentRow) (eid : ℤ) (la lo : ℚ) (g : GpsStatus) (t : ℕ)
    (h : (l.map (fun r => r.employee_id)).Nodup) :
    (upsertLive l eid la lo g t).filter (fun r => r.employee_id == eid) =
      [⟨eid, la, lo, g, t⟩] := by
  unfold upsertLive
  split
  next hany =>
    induction l with
    | nil => simp at hany
    | cons hd tl ih =>
      simp only [List.map_cons, List.nodup_cons] at h
      simp only [List.map_cons]
      cases hb : hd.employee_id == eid with
      | true =>
        have hrest :
            ((tl.map (fun r =>
                if r.employee_id == eid then (⟨eid, la, lo, g, t⟩ : CurrentRow) else r)).filter
              (fun r => r.employee_id == eid)) = [] := by
          refine List.filter_eq_nil_iff.mpr ?_
          intro x hx
          obtain ⟨row0, hrow0, hfx⟩ := List.mem_map.mp hx
          have hb0 : (row0.employee_id == eid) = false := by
            cases hb0v : row0.employee_id == eid with
            | false => rfl
            | true =>
              exfalso
              refine h.1 ?_
              rw [beq_iff_eq.mp hb, ← beq_iff_eq.mp hb0v]
              exact List.mem_map.mpr ⟨row0, hrow0, rfl⟩
          have hfx' : x = row0 := by rw [← hfx]; simp [hb0]
          rw [hfx', hb0]
          simp
        have hpnew : ((⟨eid, la, lo, g, t⟩ : CurrentRow).employee_id == eid) = true :=
          beq_self_eq_true eid
        rw [if_pos (rfl : (true : Bool) = true), List.filter_cons, if_pos hpnew, hrest]
      | false =>
        have hany' : tl.any (fun r => r.employee_id == eid) = true := by
          rcases List.any_eq_true.mp hany with ⟨row0, hrow0, hrow0b⟩
          rcases List.mem_cons.mp hrow0 with h1 | h1
          · rw [h1] at hrow0b
            simp [hb] at hrow0b
          · exact List.any_eq_true.mpr ⟨row0, h1, hrow0b⟩
        rw [if_neg (by simp), List.filter_cons, if_neg (by simp [hb])]
        exact ih h.2 hany'
  next hany =>
    rw [List.filter_append]
    have h1 : l.filter (fun r => r.employee_id == eid) = [] := by
      refine List.filter_eq_nil_iff.mpr ?_
      intro row hrow hbeq
      have : l.any (fun r => r.employee_id == eid) = true :=
        List.any_eq_true.mpr ⟨row, hrow, hbeq⟩
      simp [this] at hany
    rw [h1]
    simp

/-! ### Concrete fixtures used by witnesses and counterexamples -/

/-- A representative valid report body: worker 7 at (10, 20), status on. -/
def bodyA : Body := ⟨some (.num 7), some (.num 10), some (.num 20), some (.str "on"), none, []⟩

/-- `bodyA` with an ISO timestamp added. -/
def bodyATs : Body :=
  ⟨some (.num 7), some (.num 10), some (.num 20), some (.str "on"),
    some (.str "2024-01-01T00:00:00Z"), []⟩

/-- A body whose latitude 100 is outside [-90, 90]. -/
def bodyBadLat : Body :=
  ⟨some (.num 7), some (.num 100), some (.num 20), some (.str "on"), none, []⟩

/-- `bodyA` with an additional unknown property `speed`. -/
def bodyExtra : Body :=
  ⟨some (.num 7), some (.num 10), some (.num 20), some (.str "on"), none, ["speed"]⟩

/-- A valid body whose latitude 0.0000005 has seven fractional digits. -/
def bodyPrec : Body :=
  ⟨some (.num 7), some (.num (mkRat 1 2000000)), some (.num 20), some (.str "on"), none, []⟩

/-- Three connected observers; observer 2's connection is broken. -/
def hub0 : Hub := ⟨[⟨1, true⟩, ⟨2, false⟩, ⟨3, true⟩]⟩

/-- An arbitrary LiveEvent used to exercise the hub. -/
def payload0 : Payload := ⟨7, 10, 20, .on, 0⟩

/-- A store with one live row and two history records for worker 7. -/
def demoState : StoreState :=
  ⟨[⟨7, 1, 2, .on, 3⟩], [⟨7, 1, 2, .on, 3⟩, ⟨7, 4, 5, .off, 2⟩], 4⟩

/-! ### The history handler's behavior on well-formed inputs -/

/-- Any numeric value produced by the limit computation is at most 5000. -/
theorem effectiveLimit_le (limP : Option String) (l : ℚ)
    (h : effectiveLimit limP = JsNum.num l) : l ≤ 5000 := by
  rcases limP with _ | s
  · simp only [effectiveLimit, jsMin, JsNum.num.injEq] at h
    rw [← h]
    exact min_le_right _ _
  · simp only [effectiveLimit] at h
    by_cases hs : s = ""
    · rw [if_pos hs] at h
      simp only [jsMin, JsNum.num.injEq] at h
      rw [← h]
      exact min_le_right _ _
    · rw [if_neg hs] at h
      cases hjs : jsNumber s with
      | nan => rw [hjs] at h; simp [jsMin] at h
      | num q =>
        rw [hjs] at h
        simp only [jsMin, JsNum.num.injEq] at h
        rw [← h]
        exact min_le_right _ _

/-- When the id parses to a nonzero number and the limit is a nonnegative
integer, the handler runs the SELECT and answers it verbatim. -/
theorem getHistoryHandler_ok (st : StoreState) (idP : String) (limP : Option String)
    (e : ℤ) (l : ℚ) (hid : jsNumber idP = JsNum.num (e : ℚ)) (he : e ≠ 0)
    (hl : effectiveLimit limP = JsNum.num l) (hden : l.den = 1) (hnum0 : 0 ≤ l.num) :
    getHistoryHandler st idP limP =
      ⟨200, true, none,
        some ((st.history.filter (fun hr => (hr.employee_id : ℚ) == (e : ℚ))).take l.num.toNat),
        true⟩ := by
  have hne : ((e : ℚ)) ≠ 0 := Int.cast_ne_zero.mpr he
  simp only [getHistoryHandler, hid]
  rw [if_neg hne]
  simp only [sqlSelectHistory, hl]
  rw [if_pos (⟨hden, hnum0⟩ : l.den = 1 ∧ 0 ≤ l.num)]

/-- A successful history response never holds more than 5000 records. -/
theorem getHistoryHandler_data_le (st : StoreState) (idP : String) (limP : Option String)
    (rows : List HistoryRow) (h : (getHistoryHandler st idP limP).data = some rows) :
    rows.length ≤ 5000 := by
  cases hjs : jsNumber idP with
  | nan =>
    have heq : getHistoryHandler st idP limP =
        ⟨400, false, some "Invalid employee_id", none, false⟩ := by
      simp only [getHistoryHandler, hjs]
    rw [heq] at h
    simp at h
  | num e =>
    by_cases he : e = 0
    · subst he
      have heq : getHistoryHandler st idP limP =
          ⟨400, false, some "Invalid employee_id", none, false⟩ := by
        simp [getHistoryHandler, hjs]
      rw [heq] at h
      simp at h
    · have heq : getHistoryHandler st idP limP =
          match sqlSelectHistory st.history e (effectiveLimit limP) with
          | .ok rows' => ⟨200, true, none, some rows', true⟩
          | .error _ => ⟨500, false, some "Database error", none, true⟩ := by
        simp only [getHistoryHandler, hjs]
        rw [if_neg he]
      rw [heq] at h
      cases hsel : sqlSelectHistory st.history e (effectiveLimit limP) with
      | error m => rw [hsel] at h; simp at h
      | ok rows' =>
        rw [hsel] at h
        simp only [Option.some.injEq] at h
        cases hl : effectiveLimit limP with
        | nan =>
          have hred : sqlSelectHistory st.history e (effectiveLimit limP) =
              Except.error "ER_PARSE_ERROR" := by
            simp only [sqlSelectHistory, hl]
          rw [hred] at hsel
          cases hsel
        | num l =>
          have hred : sqlSelectHistory st.history e (effectiveLimit limP) =
              if l.den = 1 ∧ 0 ≤ l.num then
                .ok ((st.history.filter (fun hr => (hr.employee_id : ℚ) == e)).take l.num.toNat)
              else .error "ER_PARSE_ERROR" := by
            simp only [sqlSelectHistory, hl]
          rw [hred] at hsel
          split at hsel
          next hcond =>
            have hle : l ≤ 5000 := effectiveLimit_le limP l hl
            have hl1 : ((l.num : ℚ)) = l := (Rat.den_eq_one_iff l).mp hcond.1
            have hnum : (l.num : ℚ) ≤ ((5000 : ℤ) : ℚ) := by
              rw [hl1]
              exact_mod_cast hle
            have hnum5 : l.num ≤ 5000 := by exact_mod_cast hnum
            cases hsel
            rw [← h]
            calc ((st.history.filter (fun hr => (hr.employee_id : ℚ) == e)).take
                  l.num.toNat).length ≤ l.num.toNat := List.length_take_le _ _
              _ ≤ 5000 := by omega
          next => cases hsel

/-! ### Claim theorems -/

/-- C1: any failure inside the dual-write transaction of an accepted report
(the CurrentPosition upsert plus the HistoryRecord insert, or the commit)
rolls both writes back — the live table and the history table are unchanged —
publishes no LiveEvent, and answers HTTP 500 with success:false and error
"Database error". -/
theorem C1_transaction_failure_rolls_back (st : StoreState) (b : Body) (r : Report)
    (f : DbFailure) (d1 d2 d3 : ℕ) (hv : validate b = .ok r) (hf : f ≠ .noFault) :
    (postLocation st b f d1 d2 d3).store.live = st.live ∧
    (postLocation st b f d1 d2 d3).store.history = st.history ∧
    (postLocation st b f d1 d2 d3).broadcastEvent = none ∧
    (postLocation st b f d1 d2 d3).status = 500 ∧
    (postLocation st b f d1 d2 d3).success = false ∧
    (postLocation st b f d1 d2 d3).errorMsg = some "Database error" := by
  obtain ⟨h1, h2, h3, h4, h5, h6, h7⟩ := postLocation_fault hv hf
  exact ⟨h1, h2, h7, h3, h4, h5⟩

theorem C1_transaction_failure_rolls_back_witness :
    (postLocation initState bodyA .atHistory 0 0 0).store.live = initState.live ∧
    (postLocation initState bodyA .atHistory 0 0 0).store.history = initState.history ∧
    (postLocation initState bodyA .atHistory 0 0 0).broadcastEvent = none ∧
    (postLocation initState bodyA .atHistory 0 0 0).status = 500 ∧
    (postLocation initState bodyA .atHistory 0 0 0).success = false ∧
    (postLocation initState bodyA .atHistory 0 0 0).errorMsg = some "Database error" :=
  C1_transaction_failure_rolls_back initState bodyA ⟨7, 10, 20, .on, none⟩ .atHistory 0 0 0
    rfl (by decide)

/-- C3: a report whose latitude is outside [-90, 90] or whose longitude is
outside [-180, 180] fails validation and is answered with HTTP 400 before any
write: the whole store (both tables and the clock) is unchanged and no event
is published. -/
theorem C3_out_of_range_rejected_no_side_effect (st : StoreState) (b : Body)
    (f : DbFailure) (d1 d2 d3 : ℕ)
    (h : (∃ q, b.latitude = some (.num q) ∧ (q < -90 ∨ 90 < q)) ∨
      (∃ q, b.longitude = some (.num q) ∧ (q < -180 ∨ 180 < q))) :
    (postLocation st b f d1 d2 d3).status = 400 ∧
    (postLocation st b f d1 d2 d3).success = false ∧
    (postLocation st b f d1 d2 d3).store = st ∧
    (postLocation st b f d1 d2 d3).broadcastEvent = none ∧
    (postLocation st b f d1 d2 d3).data = none := by
  have hval : ∃ m, validate b = .error m := by
    cases hvb : validate b with
    | error m => exact ⟨m, rfl⟩
    | ok r =>
      exfalso
      obtain ⟨_, _, h3, h4, h5, h6, h7, h8, _, _⟩ := validate_ok hvb
      rcases h with ⟨q, hq, hout⟩ | ⟨q, hq, hout⟩
      · rw [h3] at hq
        simp only [Option.some.injEq, JVal.num.injEq] at hq
        rw [← hq] at hout
        rcases hout with hlt | hgt
        · exact absurd h4 (not_le.mpr hlt)
        · exact absurd h5 (not_le.mpr hgt)
      · rw [h6] at hq
        simp only [Option.some.injEq, JVal.num.injEq] at hq
        rw [← hq] at hout
        rcases hout with hlt | hgt
        · exact absurd h7 (not_le.mpr hlt)
        · exact absurd h8 (not_le.mpr hgt)
  obtain ⟨m, hm⟩ := hval
  rw [postLocation_error hm]
  exact ⟨rfl, rfl, rfl, rfl, rfl⟩

theorem C3_out_of_range_rejected_no_side_effect_witness :
    (postLocation initState bodyBadLat .noFault 0 0 0).status = 400 ∧
    (postLocation initState bodyBadLat .noFault 0 0 0).success = false ∧
    (postLocation initState bodyBadLat .noFault 0 0 0).store = initState ∧
    (postLocation initState bodyBadLat .noFault 0 0 0).broadcastEvent = none ∧
    (postLocation initState bodyBadLat .noFault 0 0 0).data = none :=
  C3_out_of_range_rejected_no_side_effect initState bodyBadLat .noFault 0 0 0
    (.inl ⟨100, rfl, .inr (by norm_num)⟩)

/-- C9: a body containing any property beyond the five of `locationSchema` is
rejected with HTTP 400 before any write — Joi disallows unknown keys by
default, so extra fields fail validation instead of being stripped. -/
theorem C9_unknown_keys_rejected (st : StoreState) (b : Body) (f : DbFailure)
    (d1 d2 d3 : ℕ) (h : b.extraKeys ≠ []) :
    (postLocation st b f d1 d2 d3).status = 400 ∧
    (postLocation st b f d1 d2 d3).success = false ∧
    (postLocation st b f d1 d2 d3).store = st ∧
    (postLocation st b f d1 d2 d3).broadcastEvent = none ∧
    (postLocation st b f d1 d2 d3).data = none := by
  have hval : ∃ m, validate b = .error m := by
    cases hvb : validate b with
    | error m => exact ⟨m, rfl⟩
    | ok r =>
      exfalso
      obtain ⟨_, _, _, _, _, _, _, _, _, hx⟩ := validate_ok hvb
      exact h hx
  obtain ⟨m, hm⟩ := hval
  rw [postLocation_error hm]
  exact ⟨rfl, rfl, rfl, rfl, rfl⟩

theorem C9_unknown_keys_rejected_witness :
    (postLocation initState bodyExtra .noFault 0 0 0).status = 400 ∧
    (postLocation initState bodyExtra .noFault 0 0 0).success = false ∧
    (postLocation initState bodyExtra .noFault 0 0 0).store = initState ∧
    (postLocation initState bodyExtra .noFault 0 0 0).broadcastEvent = none ∧
    (postLocation initState bodyExtra .noFault 0 0 0).data = none :=
  C9_unknown_keys_rejected initState bodyExtra .noFault 0 0 0 (by decide)

/-- C10: the optional `timestamp` field has no effect: two valid reports that
differ only in the presence or value of `timestamp` produce identical store
writes, identical broadcast events and identical HTTP responses — every
stored or returned timestamp comes from the server clock, never from the
report. -/
theorem C10_timestamp_field_has_no_effect (st : StoreState) (b1 b2 : Body)
    (r1 r2 : Report) (f : DbFailure) (d1 d2 d3 : ℕ)
    (h1 : validate b1 = .ok r1) (h2 : validate b2 = .ok r2)
    (he : b1.employee_id = b2.employee_id) (hla : b1.latitude = b2.latitude)
    (hlo : b1.longitude = b2.longitude) (hg : b1.gps_status = b2.gps_status) :
    postLocation st b1 f d1 d2 d3 = postLocation st b2 f d1 d2 d3 := by
  obtain ⟨e1, _, la1, _, _, lo1, _, _, g1, _⟩ := validate_ok h1
  obtain ⟨e2, _, la2, _, _, lo2, _, _, g2, _⟩ := validate_ok h2
  have heid : r1.employee_id = r2.employee_id := by
    rw [he, e2] at e1
    simp only [Option.some.injEq, JVal.num.injEq] at e1
    exact_mod_cast e1.symm
  have hlat : r1.latitude = r2.latitude := by
    rw [hla, la2] at la1
    simp only [Option.some.injEq, JVal.num.injEq] at la1
    exact la1.symm
  have hlon : r1.longitude = r2.longitude := by
    rw [hlo, lo2] at lo1
    simp only [Option.some.injEq, JVal.num.injEq] at lo1
    exact lo1.symm
  have hgps : r1.gps_status = r2.gps_status := by
    rcases g1 with ⟨gb1, gr1⟩ | ⟨gb1, gr1⟩ <;> rcases g2 with ⟨gb2, gr2⟩ | ⟨gb2, gr2⟩
    · rw [gr1, gr2]
    · rw [hg, gb2] at gb1
      simp at gb1
    · rw [hg, gb2] at gb1
      simp at gb1
    · rw [gr1, gr2]
  unfold postLocation
  simp only [h1, h2]
  cases f <;> simp [heid, hlat, hlon, hgps]

theorem C10_timestamp_field_has_no_effect_witness :
    postLocation initState bodyA .noFault 0 0 0 = postLocation initState bodyATs .noFault 0 0 0 :=
  C10_timestamp_field_has_no_effect initState bodyA bodyATs ⟨7, 10, 20, .on, none⟩
    ⟨7, 10, 20, .on, some "2024-01-01T00:00:00Z"⟩ .noFault 0 0 0
    rfl rfl rfl rfl rfl rfl

/-- C7 as stated is false on the code: with one clock tick elapsing between
the two statements of the transaction and one more before the response is
built, an accepted report commits a CurrentPosition stamped 0, a history
record stamped 1, and broadcasts/returns a payload stamped 2 — the two writes
are NOT timestamped by one shared clock read (each statement evaluates its
own NOW()), and the payload's `last_update` comes from a post-commit
`new Date()` on the application server, not from the committed row. -/
theorem C7_counterexample :
    ((postLocation initState bodyA .noFault 0 1 1).store.live.map
      (fun r => r.last_update)) = [0] ∧
    ((postLocation initState bodyA .noFault 0 1 1).store.history.map
      (fun r => r.recorded_at)) = [1] ∧
    ((postLocation initState bodyA .noFault 0 1 1).data.map
      (fun p => p.last_update)) = some 2 ∧
    ((postLocation initState bodyA .noFault 0 1 1).broadcastEvent.map
      (fun p => p.last_update)) = some 2 ∧
    ((postLocation initState bodyA .noFault 0 1 1).store.live.map
        (fun r => r.last_update)) ≠
      ((postLocation initState bodyA .noFault 0 1 1).store.history.map
        (fun r => r.recorded_at)) := by
  refine ⟨by decide, by decide, by decide, by decide, by decide⟩

/-- C7 amended: the upsert and the history insert each evaluate their own
NOW() (clock reads t1 = clock+d1 and t2 = t1+d2 inside one transaction), and
the LiveEvent/response payload is built after commit from the *validated
request values* plus a third application clock read t3 = t2+d3 — so the
payload's coordinates are the unrounded request values and its `last_update`
is t3, while the committed row carries the rounded coordinates and t1. -/
theorem C7_amended_per_statement_clock_reads (st : StoreState) (b : Body) (r : Report)
    (d1 d2 d3 : ℕ) (hv : validate b = .ok r) (hu : UniqueLive st) :
    (postLocation st b .noFault d1 d2 d3).broadcastEvent =
      some ⟨r.employee_id, r.latitude, r.longitude, r.gps_status, st.clock + d1 + d2 + d3⟩ ∧
    (postLocation st b .noFault d1 d2 d3).data =
      (postLocation st b .noFault d1 d2 d3).broadcastEvent ∧
    ((postLocation st b .noFault d1 d2 d3).store.live.filter
        (fun row => row.employee_id == r.employee_id)) =
      [⟨r.employee_id, round6 r.latitude, round6 r.longitude, r.gps_status, st.clock + d1⟩] ∧
    (postLocation st b .noFault d1 d2 d3).store.history.head? =
      some ⟨r.employee_id, round6 r.latitude, round6 r.longitude, r.gps_status,
        st.clock + d1 + d2⟩ := by
  rw [postLocation_ok hv]
  exact ⟨rfl, rfl, filter_upsertLive _ _ _ _ _ _ hu, rfl⟩

theorem C7_amended_per_statement_clock_reads_witness :
    (postLocation initState bodyA .noFault 0 1 1).broadcastEvent =
      some ⟨7, 10, 20, .on, 2⟩ ∧
    (postLocation initState bodyA .noFault 0 1 1).data =
      (postLocation initState bodyA .noFault 0 1 1).broadcastEvent ∧
    ((postLocation initState bodyA .noFault 0 1 1).store.live.filter
        (fun row => row.employee_id == 7)) = [⟨7, round6 10, round6 20, .on, 0⟩] ∧
    (postLocation initState bodyA .noFault 0 1 1).store.history.head? =
      some ⟨7, round6 10, round6 20, .on, 1⟩ := by
  exact C7_amended_per_statement_clock_reads initState bodyA ⟨7, 10, 20, .on, none⟩ 0 1 1
    rfl (by simp [UniqueLive, initState])

/-- C2 as stated is false on the code: the two DECIMAL(10,6) columns round
the submitted coordinates to six fractional digits, so after a successful
submit of latitude 0.0000005 both the current-positions read and the history
read return latitude 0.000001, not the submitted value. -/
theorem C2_counterexample :
    (postLocation initState bodyPrec .noFault 0 0 0).success = true ∧
    ((getLocations (postLocation initState bodyPrec .noFault 0 0 0).store).map
      (fun row => row.latitude)) = [mkRat 1 1000000] ∧
    ((postLocation initState bodyPrec .noFault 0 0 0).store.history.map
      (fun hr => hr.latitude)) = [mkRat 1 1000000] ∧
    ¬ (mkRat 1 1000000 = mkRat 1 2000000) := by
  refine ⟨by decide, by decide, by decide, by decide⟩

/-- C2 amended: after a successful submit, the current-positions read holds
exactly one row for that worker carrying the submitted values *rounded to six
fractional digits* (exact whenever the submitted coordinates have at most six
fractional digits) with the upsert's timestamp, and the history read (for any
id string parsing to that worker and any integer limit ≥ 1) answers 200 with
the matching rounded record as its most recent, first entry. -/
theorem C2_amended_reads_reflect_rounded_submit (st : StoreState) (b : Body) (r : Report)
    (d1 d2 d3 : ℕ) (idP : String) (limP : Option String) (l : ℚ)
    (hv : validate b = .ok r) (hu : UniqueLive st)
    (hid : jsNumber idP = JsNum.num (r.employee_id : ℚ))
    (hl : effectiveLimit limP = JsNum.num l) (hden : l.den = 1) (hpos : 1 ≤ l.num) :
    ((getLocations (postLocation st b .noFault d1 d2 d3).store).filter
        (fun row => row.employee_id == r.employee_id)) =
      [⟨r.employee_id, round6 r.latitude, round6 r.longitude, r.gps_status, st.clock + d1⟩] ∧
    (getHistoryHandler (postLocation st b .noFault d1 d2 d3).store idP limP).status = 200 ∧
    ((getHistoryHandler (postLocation st b .noFault d1 d2 d3).store idP limP).data.map
        (fun rows => rows.head?)) =
      some (some ⟨r.employee_id, round6 r.latitude, round6 r.longitude, r.gps_status,
        st.clock + d1 + d2⟩) := by
  obtain ⟨_, heid1, _, _, _, _, _, _, _, _⟩ := validate_ok hv
  have hne : r.employee_id ≠ 0 := by omega
  have hnum0 : 0 ≤ l.num := le_trans zero_le_one hpos
  rw [postLocation_ok hv]
  have hget := getHistoryHandler_ok
    ⟨upsertLive st.live r.employee_id (round6 r.latitude) (round6 r.longitude) r.gps_status
        (st.clock + d1),
      ⟨r.employee_id, round6 r.latitude, round6 r.longitude, r.gps_status, st.clock + d1 + d2⟩
        :: st.history,
      st.clock + d1 + d2 + d3⟩
    idP limP r.employee_id l hid hne hl hden hnum0
  rw [hget]
  refine ⟨filter_upsertLive _ _ _ _ _ _ hu, rfl, ?_⟩
  have hfc :
      ((⟨r.employee_id, round6 r.latitude, round6 r.longitude, r.gps_status,
          st.clock + d1 + d2⟩ :: st.history).filter
        (fun hr => (hr.employee_id : ℚ) == (r.employee_id : ℚ))) =
      ⟨r.employee_id, round6 r.latitude, round6 r.longitude, r.gps_status,
          st.clock + d1 + d2⟩ ::
        (st.history.filter (fun hr => (hr.employee_id : ℚ) == (r.employee_id : ℚ))) := by
    rw [List.filter_cons, if_pos]
    exact beq_self_eq_true _
  obtain ⟨m, hm⟩ : ∃ m, l.num.toNat = m + 1 := ⟨l.num.toNat - 1, by omega⟩
  simp only [hfc, hm, List.take_succ_cons]
  rfl

theorem C2_amended_reads_reflect_rounded_submit_witness :
    ((getLocations (postLocation initState bodyA .noFault 0 0 0).store).filter
        (fun row => row.employee_id == 7)) = [⟨7, round6 10, round6 20, .on, 0⟩] ∧
    (getHistoryHandler (postLocation initState bodyA .noFault 0 0 0).store "7" none).status
      = 200 ∧
    ((getHistoryHandler (postLocation initState bodyA .noFault 0 0 0).store "7" none).data.map
        (fun rows => rows.head?)) = some (some ⟨7, round6 10, round6 20, .on, 0⟩) := by
  exact C2_amended_reads_reflect_rounded_submit initState bodyA ⟨7, 10, 20, .on, none⟩
    0 0 0 "7" none 500 rfl (by simp [UniqueLive, initState]) (by decide) (by decide)
    (by decide) (by decide)

/-- C8: the UNIQUE(employee_id) key keeps at most one CurrentPosition row per
worker in every reachable store state, and a successful ingestion either
inserts a new row or replaces every field of the worker's existing row: the
worker's row afterwards is exactly the freshly built one — never a partial
update. -/
theorem C8_unique_row_and_full_replacement :
    (∀ ops : List Op, UniqueLive (runOps ops)) ∧
    (∀ (st : StoreState) (b : Body) (r : Report) (d1 d2 d3 : ℕ),
      UniqueLive st → validate b = .ok r →
      ((postLocation st b .noFault d1 d2 d3).store.live.filter
          (fun row => row.employee_id == r.employee_id)) =
        [⟨r.employee_id, round6 r.latitude, round6 r.longitude, r.gps_status,
          st.clock + d1⟩]) := by
  constructor
  · intro ops
    have hstep : ∀ (st : StoreState) (op : Op), UniqueLive st → UniqueLive (applyOp st op) := by
      intro st op h
      cases op with
      | post b f d1 d2 d3 =>
        cases hvb : validate b with
        | error m =>
          show UniqueLive (postLocation st b f d1 d2 d3).store
          rw [postLocation_error hvb]
          exact h
        | ok r =>
          cases f with
          | noFault =>
            show UniqueLive (postLocation st b .noFault d1 d2 d3).store
            rw [postLocation_ok hvb]
            exact nodup_upsertLive _ _ _ _ _ _ h
          | atUpsert =>
            show ((postLocation st b .atUpsert d1 d2 d3).store.live.map
              (fun row => row.employee_id)).Nodup
            rw [(postLocation_fault hvb (by decide)).1]
            exact h
          | atHistory =>
            show ((postLocation st b .atHistory d1 d2 d3).store.live.map
              (fun row => row.employee_id)).Nodup
            rw [(postLocation_fault hvb (by decide)).1]
            exact h
          | atCommit =>
            show ((postLocation st b .atCommit d1 d2 d3).store.live.map
              (fun row => row.employee_id)).Nodup
            rw [(postLocation_fault hvb (by decide)).1]
            exact h
    have hrun : ∀ (l : List Op) (st : StoreState), UniqueLive st → UniqueLive (l.foldl applyOp st) := by
      intro l
      induction l with
      | nil => intro st h; exact h
      | cons op rest ih => intro st h; exact ih _ (hstep st op h)
    exact hrun ops initState (by simp [UniqueLive, initState])
  · intro st b r d1 d2 d3 hu hv
    rw [postLocation_ok hv]
    exact filter_upsertLive _ _ _ _ _ _ hu

theorem C8_unique_row_and_full_replacement_witness :
    ((postLocation demoState bodyA .noFault 0 0 0).store.live.filter
        (fun row => row.employee_id == 7)) = [⟨7, round6 10, round6 20, .on, 4⟩] := by
  exact C8_unique_row_and_full_replacement.2 demoState bodyA ⟨7, 10, 20, .on, none⟩ 0 0 0
    (by simp [UniqueLive, demoState]) rfl

/-- C4 as stated is false on the code: the broadcast loop catches a failed
send and continues, but it never evicts the failed client — `wss.clients` is
untouched by `broadcast`, so the broken observer 2 is still registered after
the failure and the next broadcast attempts it again (it is skipped only
because its send fails again). -/
theorem C4_counterexample :
    (broadcast hub0 payload0).2 = [1, 3] ∧
    (broadcast hub0 payload0).1 = hub0 ∧
    Observer.mk 2 false ∈ (broadcast hub0 payload0).1.clients ∧
    (broadcast (broadcast hub0 payload0).1 payload0).2 = [1, 3] := by
  refine ⟨by decide, by decide, by decide, by decide⟩

/-- C4 amended: a failed send is caught inside the per-observer try/catch —
it neither reaches the publisher nor aborts delivery, and every observer
whose send succeeds still receives the event — but the failed observer is
*not* dropped: the client set after the broadcast is unchanged (eviction only
ever happens when the ws library removes a closed connection, outside this
function). -/
theorem C4_amended_isolation_without_eviction (h : Hub) (p : Payload) (o : Observer)
    (ho : o ∈ h.clients) (hok : o.sendOk = true) :
    o.oid ∈ (broadcast h p).2 ∧ (broadcast h p).1 = h := by
  constructor
  · refine List.mem_map.mpr ⟨o, ?_, rfl⟩
    refine List.mem_filter.mpr ⟨ho, ?_⟩
    simp [sendTo, hok]
  · rfl

theorem C4_amended_isolation_without_eviction_witness :
    (1 : ℕ) ∈ (broadcast hub0 payload0).2 ∧ (broadcast hub0 payload0).1 = hub0 :=
  C4_amended_isolation_without_eviction hub0 payload0 ⟨1, true⟩ (by decide) rfl

/-- C5 as stated is false on the code: `Math.min(Number(limit || 500), 5000)`
has no lower clamp.  A supplied limit of "0" reaches the store as LIMIT 0 and
returns no rows even though history exists; "-5" and "abc" reach the store
and make the query fail with 500 — none of these is clamped up to 1. -/
theorem C5_counterexample :
    effectiveLimit (some "0") = JsNum.num 0 ∧
    (getHistoryHandler demoState "7" (some "0")).storeQueried = true ∧
    (getHistoryHandler demoState "7" (some "0")).data = some [] ∧
    (getHistoryHandler demoState "7" (some "-5")).status = 500 ∧
    (getHistoryHandler demoState "7" (some "abc")).status = 500 := by
  refine ⟨by decide, by decide, by decide, by decide, by decide⟩

/-- C5 amended: the effective limit is `Math.min(Number(limit), 5000)` — an
upper cap of 5000 with a default of 500 when the parameter is absent or
empty, but no lower clamp: zero, negative and NaN values are passed through
to the store (yielding an empty result or a database error).  Any numeric
effective limit is at most 5000 and a successful history response never
holds more than 5000 records; in particular limit 999999 is capped at 5000. -/
theorem C5_amended_upper_cap_only :
    effectiveLimit none = JsNum.num 500 ∧
    effectiveLimit (some "") = JsNum.num 500 ∧
    effectiveLimit (some "999999") = JsNum.num 5000 ∧
    (∀ (s : String) (q : ℚ), effectiveLimit (some s) = JsNum.num q → q ≤ 5000) ∧
    (∀ (st : StoreState) (idP : String) (limP : Option String) (rows : List HistoryRow),
      (getHistoryHandler st idP limP).data = some rows → rows.length ≤ 5000) := by
  refine ⟨by decide, by decide, by decide, ?_, ?_⟩
  · intro s q h
    exact effectiveLimit_le (some s) q h
  · intro st idP limP rows h
    exact getHistoryHandler_data_le st idP limP rows h

theorem C5_amended_upper_cap_only_witness :
    ((getHistoryHandler demoState "7" (some "999999")).data.getD []).length ≤ 5000 :=
  C5_amended_upper_cap_only.2.2.2.2 demoState "7" (some "999999")
    ((getHistoryHandler demoState "7" (some "999999")).data.getD []) (by decide)

/-- C6 as stated is false on the code: `if (!employee_id)` only rejects the
falsy numbers NaN and 0.  The non-positive-integer ids "-3" and "3.5" pass
the check, the store *is* queried, and the service answers 200 with an empty
list instead of the claimed 400. -/
theorem C6_counterexample :
    (getHistoryHandler demoState "-3" none).status = 200 ∧
    (getHistoryHandler demoState "-3" none).storeQueried = true ∧
    (getHistoryHandler demoState "3.5" none).status = 200 ∧
    (getHistoryHandler demoState "3.5" none).storeQueried = true := by
  refine ⟨by decide, by decide, by decide, by decide⟩

/-- C6 amended: the history route rejects with 400 — without querying the
store — exactly those ids whose `Number(...)` conversion is falsy, i.e. NaN
(non-numeric strings) or 0; every other numeric id, including negative and
non-integer ones, passes the check and the store is queried. -/
theorem C6_amended_rejects_only_falsy_ids (st : StoreState) (idP : String)
    (limP : Option String) :
    ((jsNumber idP = JsNum.nan ∨ jsNumber idP = JsNum.num 0) →
      (getHistoryHandler st idP limP).status = 400 ∧
      (getHistoryHandler st idP limP).errorMsg = some "Invalid employee_id" ∧
      (getHistoryHandler st idP limP).storeQueried = false) ∧
    (∀ q : ℚ, jsNumber idP = JsNum.num q → q ≠ 0 →
      (getHistoryHandler st idP limP).storeQueried = true) := by
  constructor
  · intro h
    rcases h with h | h
    · have heq : getHistoryHandler st idP limP =
          ⟨400, false, some "Invalid employee_id", none, false⟩ := by
        simp only [getHistoryHandler, h]
      rw [heq]
      exact ⟨rfl, rfl, rfl⟩
    · have heq : getHistoryHandler st idP limP =
          ⟨400, false, some "Invalid employee_id", none, false⟩ := by
        simp [getHistoryHandler, h]
      rw [heq]
      exact ⟨rfl, rfl, rfl⟩
  · intro q hq hne
    have heq : getHistoryHandler st idP limP =
        match sqlSelectHistory st.history q (effectiveLimit limP) with
        | .ok rows' => ⟨200, true, none, some rows', true⟩
        | .error _ => ⟨500, false, some "Database error", none, true⟩ := by
      simp only [getHistoryHandler, hq]
      rw [if_neg hne]
    rw [heq]
    cases sqlSelectHistory st.history q (effectiveLimit limP) with
    | ok rows' => rfl
    | error m => rfl

theorem C6_amended_rejects_only_falsy_ids_witness :
    (getHistoryHandler demoState "abc" none).status = 400 ∧
    (getHistoryHandler demoState "abc" none).errorMsg = some "Invalid employee_id" ∧
    (getHistoryHandler demoState "abc" none).storeQueried = false :=
  (C6_amended_rejects_only_falsy_ids demoState "abc" none).1 (.inl (by decide))

end LocationTracker
